import Mathlib

/-!
Shallow embedding of the `Deadialine/coachsim` repository
(`src/coach_sim/src/App.jsx` and the mock three.js module), together with
theorems settling the frozen claims about the coaching simulator.

Numbers are modelled as rationals: the JS code only ever adds, multiplies,
divides by constants and compares, so ℚ is a faithful executable carrier.
`Math.random()` draws are passed in explicitly as oracle inputs (the code
calls the global, unseeded `Math.random`).
-/

namespace CoachSim

/-- JS `clamp = (v, lo, hi) => Math.max(lo, Math.min(hi, v))`. -/
def clamp (v lo hi : ℚ) : ℚ := max lo (min hi v)

/-- JS `rnd = (m, v) => m + (Math.random() - 0.5) * 2 * v`; `u` stands for
the value drawn from `Math.random()`. -/
def rnd (m v u : ℚ) : ℚ := m + (u - 0.5) * 2 * v

/-- The fake user model (`defaultUserModel`). -/
structure UserModel where
  name : String
  hrRest : ℚ
  rrRest : ℚ
  tremorBase : ℚ
  gripMax : ℚ
  smoothnessBase : ℚ
deriving Repr, DecidableEq

def defaultUserModel : UserModel :=
  { name := "Demo User", hrRest := 72, rrRest := 12, tremorBase := 0.15,
    gripMax := 60, smoothnessBase := 0.7 }

/-- The enabled-sensor toggles (`sensors` state). -/
structure Sensors where
  tpuForearm : Bool
  tpuBicep : Bool
  tpuShoulder : Bool
  forcePads : Bool
  imu : Bool
  ppg : Bool
  resp : Bool
  haptic : Bool
deriving Repr, DecidableEq

def defaultSensors : Sensors :=
  { tpuForearm := true, tpuBicep := true, tpuShoulder := true,
    forcePads := true, imu := true, ppg := true, resp := true, haptic := true }

/-- Thresholds / policy parameters (`params` state). -/
structure Params where
  tremorWarn : ℚ
  tremorRest : ℚ
  smoothMin : ℚ
  gripTarget : ℚ
  hrCeiling : ℚ
  rrCeiling : ℚ
  difficulty : ℚ
deriving Repr, DecidableEq

def defaultParams : Params :=
  { tremorWarn := 0.35, tremorRest := 0.55, smoothMin := 0.45,
    gripTarget := 18, hrCeiling := 120, rrCeiling := 20, difficulty := 1.0 }

/-- One record of the simulated stream (`rec` built in the `setStream` updater). -/
structure Sample where
  t : ℕ
  smooth : ℚ
  tremor : ℚ
  strain : ℚ × ℚ × ℚ
  emgEnv : ℚ
  fsr : ℚ × ℚ × ℚ
  resp : ℚ
  grip : ℚ
  hr : ℚ
  rr : ℚ
deriving Repr, DecidableEq

/-- The thirteen `Math.random()` draws one synthesis tick consumes, in the
order the code draws them. -/
structure Jitter where
  uSmooth : ℚ
  uTremor : ℚ
  uStrain1 : ℚ
  uStrain2 : ℚ
  uStrain3 : ℚ
  uEmg : ℚ
  uGrip : ℚ
  uFsr1 : ℚ
  uFsr2 : ℚ
  uFsr3 : ℚ
  uHr : ℚ
  uRr : ℚ
  uResp : ℚ
deriving Repr, DecidableEq

/-- The record built inside the `setStream` updater (App.jsx lines 110-150):
synthesized signals with mild drifts, clamped into their ranges. -/
def mkSample (user : UserModel) (params : Params) (sensors : Sensors)
    (mode : String) (t : ℕ) (j : Jitter) : Sample :=
  let smooth := clamp (rnd user.smoothnessBase 0.15 j.uSmooth * params.difficulty) 0 1
  let tremor := clamp (rnd user.tremorBase 0.2 j.uTremor * (1.15 - smooth)) 0 1
  let strain := (clamp (rnd 0.46 0.08 j.uStrain1) 0 1,
                 clamp (rnd 0.52 0.08 j.uStrain2) 0 1,
                 clamp (rnd 0.58 0.08 j.uStrain3) 0 1)
  let emgEnv := clamp (rnd 0.35 0.12 j.uEmg * (if smooth < 0.55 then 1.2 else 0.9)) 0 1
  let grip := clamp (rnd params.gripTarget 6 j.uGrip *
                    (if sensors.forcePads then 1 else 0) *
                    (if mode = "REST" then 0.6 else 1)) 0 user.gripMax
  let fsr := (clamp (grip * 0.45 + rnd 4 2 j.uFsr1) 0 (user.gripMax / 2),
              clamp (grip * 0.35 + rnd 3 2 j.uFsr2) 0 (user.gripMax / 2),
              clamp (rnd 16 6 j.uFsr3) 0 45)
  let hr := clamp (rnd (user.hrRest + params.difficulty * 25 *
                       (if smooth < 0.55 then 1 else 0.6)) 4 j.uHr) 50 200
  let rr := clamp (rnd (user.rrRest + (hr - user.hrRest) / 20) 1.4 j.uRr) 6 35
  let resp := clamp (rnd 0.55 0.1 j.uResp * (rr / 18)) 0 1.2
  { t := t, smooth := smooth, tremor := tremor, strain := strain,
    emgEnv := emgEnv, fsr := fsr, resp := resp, grip := grip, hr := hr, rr := rr }

/-- `const t = arr.length ? arr[arr.length - 1].t + 1 : 0`. -/
def nextT (arr : List Sample) : ℕ :=
  match arr.getLast? with
  | some l => l.t + 1
  | none => 0

/-- The `setStream` updater of one synthesis tick:
`return [...arr.slice(-180), rec]` (keep the last 180 records, append the
fresh one). `arr.slice(-180)` is `arr.drop (arr.length - 180)` under
truncated ℕ subtraction. -/
def tickStream (user : UserModel) (params : Params) (sensors : Sensors)
    (mode : String) (arr : List Sample) (j : Jitter) : List Sample :=
  arr.drop (arr.length - 180) ++ [mkSample user params sensors mode (nextT arr) j]

/-- The coaching policy rule engine (App.jsx lines 158-198) applied to the
latest sample: returns `(nextMode, coach)`. `mode` is the current mode; the
code initialises `nextMode` with it but every branch overwrites it. -/
def policyStep (sensors : Sensors) (params : Params) (running : Bool)
    (mode : String) (last : Sample) : String × String :=
  let base : String × String :=
    if (sensors.ppg && decide (last.hr > params.hrCeiling)) ||
       (sensors.resp && decide (last.rr > params.rrCeiling)) then
      ("REST", "Heart/resp high — pause and breathe")
    else if sensors.tpuForearm && decide (last.tremor > params.tremorRest) then
      ("REST", "Tremor elevated — guided rest")
    else if running then
      ("COACHING",
        if last.smooth < params.smoothMin then "Slow down, lengthen exhale"
        else if |last.grip - params.gripTarget| > 8 then "Match both hands gently"
        else if last.tremor > params.tremorWarn then "Micro‑break: shake out wrist"
        else "Nice form — adding tiny challenge")
    else
      ("IDLE", "Coach idle. Press Start.")
  if sensors.haptic && decide (base.1 ≠ "IDLE") then
    (base.1, base.2 ++ " • Haptic cue: 200 ms pulse")
  else base

/-- One line of the in-memory data log (the object pushed by `setNotes`).
`ts` is the wall-clock ISO timestamp, passed in as an oracle; the numeric
fields model `toFixed` / `Math.round` formatting by rational rounding. -/
structure LogRow where
  ts : String
  mode : String
  msg : String
  smooth : ℚ
  tremor : ℚ
  grip : ℚ
  hr : ℤ
  rr : ℤ
deriving Repr, DecidableEq

/-- JS `x.toFixed(2)` viewed as a number: round to 2 decimal places. -/
def toFixed2 (q : ℚ) : ℚ := (round (q * 100) : ℤ) / 100

/-- JS `x.toFixed(1)` viewed as a number: round to 1 decimal place. -/
def toFixed1 (q : ℚ) : ℚ := (round (q * 10) : ℤ) / 10

/-- JS `String.prototype.includes`. -/
def jsIncludes (s sub : String) : Bool := decide (sub.toList <:+: s.toList)

/-- The mutable state of the `App` component that the claims touch. -/
structure AppState where
  running : Bool
  time : ℕ
  user : UserModel
  sensors : Sensors
  params : Params
  stream : List Sample
  message : String
  mode : String
  notes : List LogRow
deriving Repr, DecidableEq

/-- The initial component state (the `useState` initialisers). -/
def initState : AppState :=
  { running := false, time := 0, user := defaultUserModel,
    sensors := defaultSensors, params := defaultParams, stream := [],
    message := "Coach idle. Press Start.", mode := "IDLE", notes := [] }

/-- One firing of the interval callback (App.jsx lines 107-153): bump `time`
and push a fresh sample through `tickStream`. The interval only exists while
`running` is true (`if (!running) return`). -/
def applyTick (s : AppState) (j : Jitter) : AppState :=
  if s.running then
    { s with time := s.time + 1,
             stream := tickStream s.user s.params s.sensors s.mode s.stream j }
  else s

/-- One run of the coaching-policy effect (App.jsx lines 158-219): read the
latest sample, compute `(nextMode, coach)`, store them, and append a log row
when the logging condition fires. `ts` is the wall-clock timestamp oracle. -/
def applyPolicy (s : AppState) (ts : String) : AppState :=
  match s.stream.getLast? with
  | none => s
  | some last =>
    let mc := policyStep s.sensors s.params s.running s.mode last
    let shouldLog : Bool :=
      s.stream.length % 15 == 0 || jsIncludes mc.2 "pause" || jsIncludes mc.2 "Nice"
    { s with
      mode := mc.1
      message := mc.2
      notes :=
        if shouldLog then
          s.notes ++ [{ ts := ts, mode := mc.1, msg := mc.2,
                        smooth := toFixed2 last.smooth,
                        tremor := toFixed2 last.tremor,
                        grip := toFixed1 last.grip,
                        hr := round last.hr, rr := round last.rr }]
        else s.notes }

/-- The `start` handler: `setRunning(true)`. -/
def start (s : AppState) : AppState := { s with running := true }

/-- The `stop` handler: stop running, mode IDLE, idle message. -/
def stop (s : AppState) : AppState :=
  { s with running := false, mode := "IDLE", message := "Coach idle. Press Start." }

/-- The `reset` handler: empty the stream, empty the log, zero the clock. -/
def reset (s : AppState) : AppState :=
  { s with stream := [], notes := [], time := 0 }

/-! ### CSV export -/

/-- A log row as `exportCSV` sees it: a JS object, i.e. an ordered list of
key/value pairs (`Object.keys` / `Object.values` walk insertion order). -/
def Row : Type := List (String × String)

/-- `Object.keys(r)`. -/
def rowKeys (r : Row) : List String := r.map Prod.fst

/-- `Object.values(r)`. -/
def rowValues (r : Row) : List String := r.map Prod.snd

/-- The CSV text built by `exportCSV` (App.jsx lines 35-38):
header line from the first row's keys, one comma-joined line per row,
all joined with newlines. `Object.keys(rows[0] || {})` is `[]` on the
empty list. -/
def exportCSVText (rows : List Row) : String :=
  let header := String.intercalate ","
    (match rows with
     | [] => []
     | r :: _ => rowKeys r)
  let lines := rows.map (fun r => String.intercalate "," (rowValues r))
  String.intercalate "\n" (header :: lines)

/-! ### SVG sensor-layout editor -/

/-- A draggable layout marker. -/
structure LPoint where
  id : String
  x : ℚ
  y : ℚ
deriving Repr, DecidableEq

/-- The `dragging` ref: the dragged marker's id and the client coordinates
of the previous mouse event. -/
structure DragRef where
  id : String
  ox : ℚ
  oy : ℚ
deriving Repr, DecidableEq

/-- State of `LayoutPane`: the markers plus the drag ref. -/
structure LayoutState where
  points : List LPoint
  dragging : Option DragRef
deriving Repr, DecidableEq

/-- `onDown(id)` at client position `(ex, ey)`. -/
def onDown (st : LayoutState) (id : String) (ex ey : ℚ) : LayoutState :=
  { st with dragging := some { id := id, ox := ex, oy := ey } }

/-- `onMove` at client position `(ex, ey)`: with no drag in progress do
nothing; otherwise translate every point whose id matches the dragged id by
the delta since the previous event and remember the new origin. -/
def onMove (st : LayoutState) (ex ey : ℚ) : LayoutState :=
  match st.dragging with
  | none => st
  | some d =>
    let dx := ex - d.ox
    let dy := ey - d.oy
    { points := st.points.map fun p =>
        if p.id = d.id then { p with x := p.x + dx, y := p.y + dy } else p,
      dragging := some { id := d.id, ox := ex, oy := ey } }

/-- `onUp`: clear the drag ref. -/
def onUp (st : LayoutState) : LayoutState := { st with dragging := none }

/-- The policy effect's decision as a function of the whole stream: it reads
only `stream[stream.length - 1]` and bails out when the stream is empty. -/
def policyDecision (sensors : Sensors) (params : Params) (running : Bool)
    (mode : String) (stream : List Sample) : Option (String × String) :=
  match stream.getLast? with
  | none => none
  | some last => some (policyStep sensors params running mode last)

/-! ### Mock three.js module: the 2D-canvas stand-in `WebGLRenderer`

`Object3D` carries `visible` and `children`; `Mesh` additionally carries a
`BoxGeometry` and a `MeshStandardMaterial` (either may be absent at the
access sites, which use `obj.geometry?.width || 1` and
`obj.material?.color ?? 0x888888`). The object's `position`/`rotation`
drive only the canvas transform stack (`translate`/`rotate`/`scale`), which
the drawn-mesh claims do not concern, so a draw command records the
rounded-rectangle geometry and fill colour of one `ctx.roundRect` +
`ctx.fill()` call. -/

structure BoxGeometry where
  width : ℚ
  height : ℚ
  depth : ℚ
deriving Repr, DecidableEq

structure Material where
  color : ℕ
  roughness : ℚ
deriving Repr, DecidableEq

/-- A scene-graph node: `mesh = some (geom, mat)` marks a `Mesh` instance
(with its possibly-absent geometry and material); `none` is a plain
`Object3D` / `Group` / light / helper, for which `render` draws nothing. -/
inductive Obj3D where
  | node (visible : Bool) (mesh : Option (Option BoxGeometry × Option Material))
         (children : List Obj3D)

/-- `colorToCss(hex)`: `"#" + hex.toString(16).padStart(6, "0")`. -/
def colorToCss (hex : ℕ) : String :=
  let s := (Nat.toDigits 16 hex).asString
  "#" ++ String.mk (List.replicate (6 - s.length) '0') ++ s

/-- One filled rounded rectangle painted by `render`:
`w`/`h` are `(obj.geometry?.width || 1) * scale` and the same for height
(`scale = 60`; JS `||` falls back on `1` when the width is `0` or the
geometry is absent), `fill` is `colorToCss(obj.material?.color ?? 0x888888)`. -/
structure DrawCmd where
  w : ℚ
  h : ℚ
  fill : String
deriving Repr, DecidableEq

/-- The draw command for one `Mesh`. -/
def mkDrawCmd (geom : Option BoxGeometry) (mat : Option Material) : DrawCmd :=
  { w := (match geom with
          | some g => if g.width = 0 then 1 else g.width
          | none => 1) * 60
    h := (match geom with
          | some g => if g.height = 0 then 1 else g.height
          | none => 1) * 60
    fill := colorToCss (match mat with | some m => m.color | none => 0x888888) }

/-- The rectangles a `Mesh` node itself contributes (`obj instanceof Mesh`). -/
def ownCmds (mesh : Option (Option BoxGeometry × Option Material)) : List DrawCmd :=
  match mesh with
  | some (g, m) => [mkDrawCmd g m]
  | none => []

mutual
/-- `drawObject` from `WebGLRenderer.render`: bail out when `!obj.visible`,
otherwise paint the node's own rectangle (if it is a `Mesh`) and recurse
into `obj.children` in order. -/
def drawObject : Obj3D → List DrawCmd
  | .node vis mesh children =>
    if vis then ownCmds mesh ++ drawObjectList children else []

def drawObjectList : List Obj3D → List DrawCmd
  | [] => []
  | c :: cs => drawObject c ++ drawObjectList cs
end

/-- `WebGLRenderer.render(scene, camera)`: `scene.children.forEach(drawObject)`
(the scene's own `visible` flag is never consulted). -/
def render (scene : Obj3D) : List DrawCmd :=
  match scene with
  | .node _ _ children => drawObjectList children

mutual
/-- Spec-side: every `Mesh` of the subtree, tagged with the conjunction of
the `visible` flags on the path from the subtree root down to the mesh
itself. -/
def taggedMeshes : Obj3D → List (Bool × DrawCmd)
  | .node vis mesh children =>
    (ownCmds mesh).map (fun c => (vis, c)) ++
      (taggedMeshesList children).map fun bc => (vis && bc.1, bc.2)

def taggedMeshesList : List Obj3D → List (Bool × DrawCmd)
  | [] => []
  | c :: cs => taggedMeshes c ++ taggedMeshesList cs
end

/-- Keep exactly the commands whose visibility tag is `true`. -/
def keepVisible (l : List (Bool × DrawCmd)) : List DrawCmd :=
  l.filterMap fun bc => if bc.1 then some bc.2 else none

/-- Spec-side description of what `render` draws: the meshes all of whose
ancestors strictly below the scene, and the mesh itself, are visible. -/
def specVisibleCmds (scene : Obj3D) : List DrawCmd :=
  match scene with
  | .node _ _ children => keepVisible (taggedMeshesList children)

/-! ## Theorems -/

theorem clamp_lower (v lo hi : ℚ) : lo ≤ clamp v lo hi := le_max_left _ _

theorem clamp_upper (v lo hi : ℚ) (h : lo ≤ hi) : clamp v lo hi ≤ hi :=
  max_le h (min_le_left _ _)

/-- The haptic-cue suffix never changes the chosen mode. -/
theorem policyStep_fst (sensors : Sensors) (params : Params) (running : Bool)
    (mode : String) (last : Sample) :
    (policyStep sensors params running mode last).1 =
      if (sensors.ppg && decide (last.hr > params.hrCeiling)) ||
         (sensors.resp && decide (last.rr > params.rrCeiling)) then "REST"
      else if sensors.tpuForearm && decide (last.tremor > params.tremorRest) then "REST"
      else if running then "COACHING"
      else "IDLE" := by
  unfold policyStep
  split_ifs <;> (dsimp only) <;> split <;> rfl

/-- C1: with a latest sample present, the next mode is decided by threshold
comparisons in priority order — PPG/resp safety gates force REST, then the
forearm tremor gate forces REST, otherwise COACHING while running and IDLE
otherwise. -/
theorem next_mode_priority_order (sensors : Sensors) (params : Params)
    (running : Bool) (mode : String) (last : Sample) :
    (policyStep sensors params running mode last).1 =
      if (sensors.ppg = true ∧ last.hr > params.hrCeiling) ∨
         (sensors.resp = true ∧ last.rr > params.rrCeiling) then "REST"
      else if sensors.tpuForearm = true ∧ last.tremor > params.tremorRest then "REST"
      else if running = true then "COACHING"
      else "IDLE" := by
  rw [policyStep_fst]
  by_cases h1 : (sensors.ppg = true ∧ last.hr > params.hrCeiling) ∨
      (sensors.resp = true ∧ last.rr > params.rrCeiling)
  · simp [h1]
  · by_cases h2 : sensors.tpuForearm = true ∧ last.tremor > params.tremorRest
    · simp [h1, h2]
    · simp [h1, h2]

/-- C3: the policy decision is a function of the latest record alone (plus
toggles, parameters and the running flag): two non-empty streams with equal
last records, even under different current modes, yield the same decision. -/
theorem policy_depends_only_on_last (sensors : Sensors) (params : Params)
    (running : Bool) (mode₁ mode₂ : String) (s₁ s₂ : List Sample) (l : Sample)
    (h₁ : s₁.getLast? = some l) (h₂ : s₂.getLast? = some l) :
    policyDecision sensors params running mode₁ s₁ =
      policyDecision sensors params running mode₂ s₂ := by
  unfold policyDecision
  rw [h₁, h₂]
  rfl

/-- A neutral concrete sample used to instantiate hypotheses. -/
def sampleA : Sample :=
  { t := 0, smooth := 1/2, tremor := 0, strain := (0, 0, 0), emgEnv := 0,
    fsr := (0, 0, 0), resp := 0, grip := 18, hr := 100, rr := 12 }

/-- A second concrete sample with a high heart rate. -/
def sampleB : Sample :=
  { t := 7, smooth := 1/4, tremor := 1/10, strain := (0, 0, 0), emgEnv := 0,
    fsr := (0, 0, 0), resp := 0, grip := 30, hr := 150, rr := 25 }

theorem policy_depends_only_on_last_witness :
    ([sampleB, sampleA].getLast? = some sampleA ∧
      [sampleA].getLast? = some sampleA) ∧
    policyDecision defaultSensors defaultParams true "IDLE" [sampleB, sampleA] =
      policyDecision defaultSensors defaultParams true "REST" [sampleA] :=
  ⟨⟨rfl, rfl⟩,
    policy_depends_only_on_last defaultSensors defaultParams true "IDLE" "REST"
      [sampleB, sampleA] [sampleA] sampleA rfl rfl⟩

/-- C6: every synthesized sample respects the clamp bounds, whatever the
thirteen random draws were: smoothness and tremor in [0, 1], grip in
[0, 60] (the user's `gripMax`), heart rate in [50, 200], respiration rate
in [6, 35]. -/
theorem mkSample_clamp_bounds (params : Params) (sensors : Sensors)
    (mode : String) (t : ℕ) (j : Jitter) :
    0 ≤ (mkSample defaultUserModel params sensors mode t j).smooth ∧
    (mkSample defaultUserModel params sensors mode t j).smooth ≤ 1 ∧
    0 ≤ (mkSample defaultUserModel params sensors mode t j).tremor ∧
    (mkSample defaultUserModel params sensors mode t j).tremor ≤ 1 ∧
    0 ≤ (mkSample defaultUserModel params sensors mode t j).grip ∧
    (mkSample defaultUserModel params sensors mode t j).grip ≤ 60 ∧
    50 ≤ (mkSample defaultUserModel params sensors mode t j).hr ∧
    (mkSample defaultUserModel params sensors mode t j).hr ≤ 200 ∧
    6 ≤ (mkSample defaultUserModel params sensors mode t j).rr ∧
    (mkSample defaultUserModel params sensors mode t j).rr ≤ 35 :=
  ⟨clamp_lower _ _ _, clamp_upper _ _ _ (by norm_num [defaultUserModel]),
   clamp_lower _ _ _, clamp_upper _ _ _ (by norm_num [defaultUserModel]),
   clamp_lower _ _ _, clamp_upper _ _ _ (by norm_num [defaultUserModel]),
   clamp_lower _ _ _, clamp_upper _ _ _ (by norm_num [defaultUserModel]),
   clamp_lower _ _ _, clamp_upper _ _ _ (by norm_num [defaultUserModel])⟩

/-- The three legal modes. -/
def modeOk (m : String) : Prop := m = "IDLE" ∨ m = "COACHING" ∨ m = "REST"

theorem policyStep_mode_ok (sensors : Sensors) (params : Params)
    (running : Bool) (mode : String) (last : Sample) :
    modeOk (policyStep sensors params running mode last).1 := by
  rw [policyStep_fst]
  unfold modeOk
  split_ifs <;> simp

/-- C2: the mode is always one of IDLE / COACHING / REST: it starts at IDLE
and every operation sends a legal mode to a legal mode. -/
theorem mode_always_three_valued :
    modeOk initState.mode ∧
    ∀ s : AppState, modeOk s.mode →
      modeOk (start s).mode ∧ modeOk (stop s).mode ∧ modeOk (reset s).mode ∧
      (∀ j, modeOk (applyTick s j).mode) ∧
      (∀ ts, modeOk (applyPolicy s ts).mode) := by
  refine ⟨Or.inl rfl, fun s h => ⟨h, Or.inl rfl, h, fun j => ?_, fun ts => ?_⟩⟩
  · unfold applyTick; split <;> exact h
  · unfold applyPolicy
    split
    · exact h
    · exact policyStep_mode_ok _ _ _ _ _

theorem mode_always_three_valued_witness :
    modeOk initState.mode ∧ modeOk (start initState).mode :=
  ⟨mode_always_three_valued.1,
    (mode_always_three_valued.2 initState mode_always_three_valued.1).1⟩

theorem exists_append_of_ite (l : List LogRow) (c : Bool) (row : LogRow) :
    ∃ tail, (if c then l ++ [row] else l) = l ++ tail := by
  cases c
  · exact ⟨[], (List.append_nil _).symm⟩
  · exact ⟨[row], rfl⟩

theorem applyPolicy_notes_append (s : AppState) (ts : String) :
    ∃ tail, (applyPolicy s ts).notes = s.notes ++ tail := by
  unfold applyPolicy
  split
  · exact ⟨[], (List.append_nil _).symm⟩
  · exact exists_append_of_ite _ _ _

/-- C7: `reset` empties the stream, empties the log and zeroes the elapsed
time while leaving parameters, toggles, mode, message (and the running flag
and user model) untouched; and the only way any operation grows the log is
by appending to the in-memory `notes` list. -/
theorem reset_frame_and_notes_append_only (s : AppState) :
    (reset s).stream = [] ∧ (reset s).notes = [] ∧ (reset s).time = 0 ∧
    (reset s).params = s.params ∧ (reset s).sensors = s.sensors ∧
    (reset s).mode = s.mode ∧ (reset s).message = s.message ∧
    (reset s).running = s.running ∧ (reset s).user = s.user ∧
    (∀ ts, ∃ tail, (applyPolicy s ts).notes = s.notes ++ tail) ∧
    (∀ j, (applyTick s j).notes = s.notes) ∧
    (start s).notes = s.notes ∧ (stop s).notes = s.notes := by
  refine ⟨rfl, rfl, rfl, rfl, rfl, rfl, rfl, rfl, rfl,
    fun ts => applyPolicy_notes_append s ts, fun j => ?_, rfl, rfl⟩
  unfold applyTick; split <;> rfl

/-- The stored `t` fields increase by exactly one from record to record. -/
def consecutiveT (l : List Sample) : Prop :=
  l.Chain' fun a b => b.t = a.t + 1

set_option maxRecDepth 8192 in
/-- C5: a synthesis tick keeps at most 181 records, appends a record whose
`t` is the previous last `t` plus one (0 for the empty stream), and
preserves strict consecutiveness of the stored `t` values. -/
theorem tickStream_bounded_and_consecutive (user : UserModel) (params : Params)
    (sensors : Sensors) (mode : String) (arr : List Sample) (j : Jitter)
    (h : consecutiveT arr) :
    (tickStream user params sensors mode arr j).length ≤ 181 ∧
    (tickStream user params sensors mode arr j).getLast? =
      some (mkSample user params sensors mode (nextT arr) j) ∧
    (mkSample user params sensors mode (nextT arr) j).t =
      (match arr.getLast? with
       | some l => l.t + 1
       | none => 0) ∧
    consecutiveT (tickStream user params sensors mode arr j) := by
  refine ⟨?_, List.getLast?_concat _, rfl, ?_⟩
  · unfold tickStream
    rw [List.length_append, List.length_drop]
    simp only [List.length_singleton]
    omega
  · unfold tickStream consecutiveT
    rw [List.chain'_append]
    refine ⟨h.drop _, List.chain'_singleton _, fun x hx y hy => ?_⟩
    have hx' : (arr.drop (arr.length - 180)).getLast? = some x := hx
    have hy' : y = mkSample user params sensors mode (nextT arr) j := by
      have := hy
      simp at this
      exact this.symm
    obtain ⟨pre, hpre⟩ := List.drop_suffix (arr.length - 180) arr
    have hlast : arr.getLast? = some x := by
      rw [← hpre, List.getLast?_append, hx']
      rfl
    have ht : nextT arr = x.t + 1 := by unfold nextT; rw [hlast]
    rw [hy']
    show nextT arr = x.t + 1
    exact ht

/-- All thirteen draws at the midpoint 0.5 (where `rnd m v` returns `m`). -/
def jitter0 : Jitter :=
  { uSmooth := 0.5, uTremor := 0.5, uStrain1 := 0.5, uStrain2 := 0.5,
    uStrain3 := 0.5, uEmg := 0.5, uGrip := 0.5, uFsr1 := 0.5, uFsr2 := 0.5,
    uFsr3 := 0.5, uHr := 0.5, uRr := 0.5, uResp := 0.5 }

/-- Like `jitter0` but the heart-rate draw is at the top of its range. -/
def jitter1 : Jitter :=
  { uSmooth := 0.5, uTremor := 0.5, uStrain1 := 0.5, uStrain2 := 0.5,
    uStrain3 := 0.5, uEmg := 0.5, uGrip := 0.5, uFsr1 := 0.5, uFsr2 := 0.5,
    uFsr3 := 0.5, uHr := 1, uRr := 0.5, uResp := 0.5 }

theorem tickStream_bounded_and_consecutive_witness :
    consecutiveT [] ∧
    (tickStream defaultUserModel defaultParams defaultSensors "IDLE" [] jitter0).length ≤ 181 :=
  ⟨List.chain'_nil,
    (tickStream_bounded_and_consecutive defaultUserModel defaultParams
      defaultSensors "IDLE" [] jitter0 List.chain'_nil).1⟩

/-- A run of the synthesis loop: fold the tick over the sequence of draws
each tick consumed. -/
def runSynthesis (user : UserModel) (params : Params) (sensors : Sensors)
    (mode : String) (arr : List Sample) (js : List Jitter) : List Sample :=
  js.foldl (tickStream user params sensors mode) arr

/-- C4 counterexample: the jitter source is the global, unseeded
`Math.random` — there is no seed in the code to hold fixed, and two runs of
the synthesis loop from the very same program state produce different sample
sequences as soon as their ambient random draws differ. -/
theorem synthesis_not_seed_deterministic :
    runSynthesis defaultUserModel defaultParams defaultSensors "IDLE" [] [jitter0] ≠
      runSynthesis defaultUserModel defaultParams defaultSensors "IDLE" [] [jitter1] := by
  have hhr :
      (mkSample defaultUserModel defaultParams defaultSensors "IDLE" (nextT []) jitter0).hr ≠
        (mkSample defaultUserModel defaultParams defaultSensors "IDLE" (nextT []) jitter1).hr := by
    norm_num [mkSample, clamp, rnd, jitter0, jitter1, defaultUserModel,
      defaultParams, max_def, min_def]
  intro hEq
  have h2 :
      (runSynthesis defaultUserModel defaultParams defaultSensors "IDLE" [] [jitter0]).getLast? =
        (runSynthesis defaultUserModel defaultParams defaultSensors "IDLE" [] [jitter1]).getLast? := by
    rw [hEq]
  exact hhr (congrArg Sample.hr (Option.some.inj h2))

/-- C4 (amended): the synthesis loop is deterministic only relative to the
explicit sequence of `Math.random` draws: two runs from the same state that
consume equal draw sequences produce equal sample sequences. -/
theorem synthesis_deterministic_in_draws (user : UserModel) (params : Params)
    (sensors : Sensors) (mode : String) (arr : List Sample)
    (js₁ js₂ : List Jitter) (h : js₁ = js₂) :
    runSynthesis user params sensors mode arr js₁ =
      runSynthesis user params sensors mode arr js₂ := by
  rw [h]

theorem synthesis_deterministic_in_draws_witness :
    [jitter0] = [jitter0] ∧
    runSynthesis defaultUserModel defaultParams defaultSensors "IDLE" [] [jitter0] =
      runSynthesis defaultUserModel defaultParams defaultSensors "IDLE" [] [jitter0] :=
  ⟨rfl, synthesis_deterministic_in_draws defaultUserModel defaultParams
    defaultSensors "IDLE" [] [jitter0] [jitter0] rfl⟩

/-- C8: a mouse-move with a drag in progress translates the dragged point by
the delta since the previous event, leaves every other point (id and
coordinates) unchanged, and re-bases the drag origin; a mouse-move with no
drag in progress changes nothing. -/
theorem onMove_translates_only_dragged (st : LayoutState) (ex ey : ℚ) :
    (st.dragging = none → onMove st ex ey = st) ∧
    ∀ d, st.dragging = some d →
      (∀ i : ℕ, (onMove st ex ey).points[i]? =
        (st.points[i]?).map fun p =>
          if p.id = d.id then
            { p with x := p.x + (ex - d.ox), y := p.y + (ey - d.oy) }
          else p) ∧
      (onMove st ex ey).dragging = some { id := d.id, ox := ex, oy := ey } := by
  constructor
  · intro h; unfold onMove; rw [h]
  · intro d hd
    unfold onMove; rw [hd]
    exact ⟨fun i => by simp, rfl⟩

def wristPoint : LPoint := { id := "wrist", x := 330, y := 200 }

def imuPoint : LPoint := { id := "imu", x := 210, y := 120 }

def wristDrag : DragRef := { id := "wrist", ox := 331, oy := 205 }

def layoutSt : LayoutState :=
  { points := [wristPoint, imuPoint], dragging := some wristDrag }

theorem onMove_translates_only_dragged_witness :
    onMove { points := [wristPoint, imuPoint], dragging := none } 340 210 =
      { points := [wristPoint, imuPoint], dragging := none } ∧
    (onMove layoutSt 340 210).points[0]? =
      some { id := "wrist", x := 339, y := 205 } ∧
    (onMove layoutSt 340 210).points[1]? = some imuPoint ∧
    (onMove layoutSt 340 210).dragging =
      some { id := "wrist", ox := 340, oy := 210 } := by
  refine ⟨(onMove_translates_only_dragged _ 340 210).1 rfl, ?_, ?_,
    ((onMove_translates_only_dragged layoutSt 340 210).2 wristDrag rfl).2⟩
  · rw [((onMove_translates_only_dragged layoutSt 340 210).2 wristDrag rfl).1 0]
    simp [layoutSt, wristPoint, wristDrag]
    norm_num
  · rw [((onMove_translates_only_dragged layoutSt 340 210).2 wristDrag rfl).1 1]
    simp [layoutSt, wristPoint, imuPoint, wristDrag]

theorem intercalate_go_append (sep : String) : ∀ (l : List String) (x y : String),
    String.intercalate.go (x ++ y) sep l = x ++ String.intercalate.go y sep l := by
  intro l
  induction l with
  | nil => intro x y; rfl
  | cons a as ih =>
    intro x y
    show String.intercalate.go (x ++ y ++ sep ++ a) sep as =
      x ++ String.intercalate.go (y ++ sep ++ a) sep as
    rw [String.append_assoc x y sep, String.append_assoc x (y ++ sep) a, ih]

theorem intercalate_cons_cons (sep a b : String) (l : List String) :
    String.intercalate sep (a :: b :: l) =
      a ++ sep ++ String.intercalate sep (b :: l) := by
  show String.intercalate.go (a ++ sep ++ b) sep l =
    a ++ sep ++ String.intercalate.go b sep l
  exact intercalate_go_append sep l (a ++ sep) b

/-- C9: for a non-empty row list the CSV text is one header line (the
comma-joined keys of the first row) followed by one comma-joined value line
per row in order, all newline-separated; for the empty list it is the empty
header and no data lines. -/
theorem exportCSV_header_then_rows :
    (∀ (r : Row) (rs : List Row),
      exportCSVText (r :: rs) =
        String.intercalate "," (rowKeys r) ++ "\n" ++
          String.intercalate "\n"
            ((r :: rs).map fun row => String.intercalate "," (rowValues row))) ∧
    exportCSVText [] = "" := by
  constructor
  · intro r rs
    unfold exportCSVText
    dsimp only
    rw [List.map_cons, intercalate_cons_cons]
  · rfl

theorem keepVisible_append (l₁ l₂ : List (Bool × DrawCmd)) :
    keepVisible (l₁ ++ l₂) = keepVisible l₁ ++ keepVisible l₂ :=
  List.filterMap_append _ _ _

theorem keepVisible_const_true (l : List DrawCmd) :
    keepVisible (l.map fun c => (true, c)) = l := by
  simp [keepVisible, List.filterMap_map, Function.comp_def]

theorem keepVisible_const_false (l : List DrawCmd) :
    keepVisible (l.map fun c => (false, c)) = [] := by
  simp [keepVisible, List.filterMap_map, Function.comp_def]

theorem keepVisible_and_true (l : List (Bool × DrawCmd)) :
    keepVisible (l.map fun bc => (true && bc.1, bc.2)) = keepVisible l := by
  simp [keepVisible, List.filterMap_map, Function.comp_def]

theorem keepVisible_and_false (l : List (Bool × DrawCmd)) :
    keepVisible (l.map fun bc => (false && bc.1, bc.2)) = [] := by
  simp [keepVisible, List.filterMap_map, Function.comp_def]

mutual
theorem drawObject_eq_spec : ∀ o : Obj3D,
    drawObject o = keepVisible (taggedMeshes o)
  | .node vis mesh children => by
    rw [drawObject, taggedMeshes, keepVisible_append]
    cases vis with
    | false =>
      rw [keepVisible_const_false, keepVisible_and_false]
      simp
    | true =>
      rw [keepVisible_const_true, keepVisible_and_true,
        drawObjectList_eq_spec children]
      simp

theorem drawObjectList_eq_spec : ∀ cs : List Obj3D,
    drawObjectList cs = keepVisible (taggedMeshesList cs)
  | [] => rfl
  | c :: cs => by
    rw [drawObjectList, taggedMeshesList, keepVisible_append,
      drawObject_eq_spec c, drawObjectList_eq_spec cs]
end

/-- C10: `render` paints, as filled rounded rectangles, exactly the meshes
whose `visible` flags — their own and that of every ancestor strictly below
the scene — are all true; a node with `visible = false` contributes nothing,
its whole subtree included. -/
theorem render_draws_exactly_visible_meshes :
    (∀ scene : Obj3D, render scene = specVisibleCmds scene) ∧
    ∀ (mesh : Option (Option BoxGeometry × Option Material)) (children : List Obj3D),
      drawObject (Obj3D.node false mesh children) = [] := by
  constructor
  · intro scene
    cases scene with
    | node vis mesh children => exact drawObjectList_eq_spec children
  · intro mesh children
    rw [drawObject]
    simp

end CoachSim
